import Mathlib

/-!
Shallow embedding of `scripts/gantt-click-conf.py`: a one-shot automation
script that fetches task records from the ClickUp API (with bounded retry),
renders a Gantt chart, uploads it to a Confluence page, and aggregates
per-mapping success into a process exit code.

Modelling conventions:
* A `datetime` value is modelled as an `Int`: the millisecond epoch value it
  was decoded from.  `datetime.fromtimestamp(ms / 1000)` is an order-preserving
  affine injection from millisecond values, and every operation the script
  performs on dates (`timedelta` shifts, comparison, `min`/`max`) commutes with
  it, so the `Int` model is faithful for ordering and day arithmetic.
  `timedelta(days = 1)` becomes the constant `day = 86400000` ms.
* Network calls are modelled by oracle parameters describing the outcome of
  each remote request (timeout, connection error, an HTTP response with a
  status code and decoded payload, or another request exception), so that the
  pure control flow around them is embedded exactly.
* Python truthiness tests (`if not x`) on the values the script actually
  tests (`None`, strings, lists, dicts) are embedded by explicit emptiness /
  `none` checks at each site.
-/

namespace ClickGantt

/-- One day in the millisecond date model (`timedelta(days=1)`). -/
def day : Int := 86400000

/-- Python value that can sit in a task's `start_date` / `due_date` field:
JSON null / missing key, an integer, or a string. -/
inductive TsVal where
  | null
  | int (n : Int)
  | str (s : String)
deriving DecidableEq

/-- Truthiness of a timestamp field value (`if not timestamp`): `None`, `0`
and `""` are falsy. -/
def tsFalsy : TsVal → Bool
  | .null => true
  | .int n => n == 0
  | .str s => s == ""

/-- Is `c` an ASCII decimal digit? -/
def isDigitChar (c : Char) : Bool := '0' ≤ c && c ≤ '9'

/-- Accumulate the value of a digit run; `none` on the first non-digit. -/
def digitsVal : List Char → Nat → Option Nat
  | [], acc => some acc
  | c :: cs, acc =>
    if isDigitChar c then digitsVal cs (acc * 10 + (c.toNat - 48)) else none

/-- Model of Python `int(s)` on a string: an optional sign followed by a
non-empty digit run.  Exotic forms Python also accepts (surrounding
whitespace, underscores between digits, non-ASCII digits) are mapped to
`none`; no behaviour in this development depends on them.  `none` stands for
`int` raising `ValueError`. -/
def pyIntOfChars : List Char → Option Int
  | [] => none
  | '-' :: cs =>
    match cs with
    | [] => none
    | c :: _ =>
      if isDigitChar c then (digitsVal cs 0).map (fun n => -(n : Int)) else none
  | '+' :: cs =>
    match cs with
    | [] => none
    | c :: _ =>
      if isDigitChar c then (digitsVal cs 0).map (fun n => (n : Int)) else none
  | c :: cs =>
    if isDigitChar c then (digitsVal (c :: cs) 0).map (fun n => (n : Int)) else none

/-- Model of Python `int(v)` over the timestamp value domain.  `none` stands
for the call raising. -/
def pyInt : TsVal → Option Int
  | .null => none
  | .int n => some n
  | .str s => pyIntOfChars s.data

/-- `clickup_timestamp_to_date` (source lines 269-276): falsy input returns
`None`; otherwise `datetime.fromtimestamp(int(timestamp) / 1000)`, with the
bare `except:` turning any conversion failure into `None`.  In the
millisecond date model the successful result is the integer value itself.
(For astronomically large values Python's `fromtimestamp` would raise and the
bare `except` would also yield `None`; that platform-dependent range is not
modelled and no claim touches it.) -/
def clickup_timestamp_to_date (timestamp : TsVal) : Option Int :=
  if tsFalsy timestamp then none
  else
    match pyInt timestamp with
    | some n => some n
    | none => none

/-- A ClickUp task record as the script reads it: `name`, optional raw
`start_date` / `due_date` fields, and the nested status label. -/
structure Task where
  name : String
  start_date : TsVal
  due_date : TsVal
  status : String
deriving DecidableEq

/-- A resolved chart task (the dict appended to `valid_tasks`):
name, resolved start and end dates, status label. -/
structure ChartTask where
  name : String
  start : Int
  «end» : Int
  status : String
deriving DecidableEq

/-- Date-resolution step of the `for task in tasks` loop in
`generate_gantt_image` (source lines 286-308): decode both timestamps; drop
the task when both are absent; infer `start = due - 1 day` when only `due`
is present; infer `due = start + 1 day` when only `start` is present. -/
def chartTaskOf (task : Task) : Option ChartTask :=
  let start_date := clickup_timestamp_to_date task.start_date
  let due_date := clickup_timestamp_to_date task.due_date
  match start_date, due_date with
  | none, none => none
  | none, some d => some ⟨task.name, d - day, d, task.status⟩
  | some s, none => some ⟨task.name, s, s + day, task.status⟩
  | some s, some d => some ⟨task.name, s, d, task.status⟩

/-- The `valid_tasks` list built by the filtering loop, in input order. -/
def validTasksOf (tasks : List Task) : List ChartTask :=
  tasks.filterMap chartTaskOf

/-- Sort key of `valid_tasks.sort(key=lambda x: x["start"])`. -/
def startLE (a b : ChartTask) : Prop := a.start ≤ b.start

instance : DecidableRel startLE := fun a b => Int.decLe a.start b.start

instance : IsTotal ChartTask startLE := ⟨fun a b => le_total a.start b.start⟩

instance : IsTrans ChartTask startLE :=
  ⟨fun _ _ _ hab hbc => le_trans hab hbc⟩

/-- The rendered chart, keeping the data the drawing code computes: the
sorted task list, the bottom-to-top drawing order (`reversed(valid_tasks)`:
row index 0 is the bottom row), and the x-axis limits `chart_start` /
`chart_end`. -/
structure Chart where
  tasks : List ChartTask
  rows : List ChartTask
  axisMin : Int
  axisMax : Int
deriving DecidableEq

/-- `generate_gantt_image` (source lines 279-431), abstracted from pixels to
the chart data it draws: filter tasks through date resolution; return `None`
when no task survives; sort ascending by resolved start (Python's stable
sort, embedded as a stable insertion sort); compute the date range
`min(start) - 7 days` to `max(end) + 7 days`; draw rows in reversed order. -/
def generate_gantt_image (tasks : List Task) : Option Chart :=
  let valid_tasks := validTasksOf tasks
  if valid_tasks.isEmpty then none
  else
    match List.insertionSort startLE valid_tasks with
    | [] => none
    | v :: vs =>
      let min_date := vs.foldl (fun acc t => min acc t.start) v.start
      let max_date := vs.foldl (fun acc t => max acc t.«end») v.«end»
      let chart_start := min_date - 7 * day
      let chart_end := max_date + 7 * day
      some ⟨v :: vs, (v :: vs).reverse, chart_start, chart_end⟩

/-- ASCII upper-casing of one character (model of `str.upper()` per char;
every status string in play is ASCII). -/
def charUpper (c : Char) : Char :=
  if 'a' ≤ c ∧ c ≤ 'z' then Char.ofNat (c.toNat - 32) else c

/-- Model of Python `s.upper()` for ASCII strings. -/
def pyUpper (s : String) : String := String.mk (s.data.map charUpper)

/-- Does the character list `needle` start the character list `hay`? -/
def charsStartWith : List Char → List Char → Bool
  | [], _ => true
  | _ :: _, [] => false
  | a :: as, b :: bs => a == b && charsStartWith as bs

/-- Does `needle` occur as a contiguous run inside `hay`? -/
def charsOccurIn (needle : List Char) : List Char → Bool
  | [] => charsStartWith needle []
  | c :: rest => charsStartWith needle (c :: rest) || charsOccurIn needle rest

/-- Model of Python `needle in hay` on strings (substring containment). -/
def pyIn (needle hay : String) : Bool := charsOccurIn needle.data hay.data

/-- The `status_colors` table (source lines 333-351), in insertion order —
Python dict iteration preserves it. -/
def status_colors : List (String × String) :=
  [("ACHIEVED", "#8dd879"),
   ("COMPLETE", "#8dd879"),
   ("COMPLETED", "#8dd879"),
   ("APPROVED", "#8dd879"),
   ("FINALIZED", "#8dd879"),
   ("DONE", "#8dd879"),
   ("CLOSED", "#8dd879"),
   ("MONITORING", "#a8c5f0"),
   ("IMPLEMENTING", "#a8c5f0"),
   ("PROGRESS", "#a8c5f0"),
   ("REVIEWING", "#a8c5f0"),
   ("IN PROGRESS", "#a8c5f0"),
   ("TODO", "#e0e0e0"),
   ("TO DO", "#e0e0e0"),
   ("OPEN", "#e0e0e0"),
   ("DRAFTING", "#e0e0e0"),
   ("NOT STARTED", "#e0e0e0")]

/-- The default bar color (`"#e0e0e0"  # Gris claro por defecto`). -/
def defaultColor : String := "#e0e0e0"

/-- The `for key, col in status_colors.items(): if key in ...: break` loop
over an upper-cased status string: first matching entry wins. -/
def colorLoop : List (String × String) → String → String
  | [], _ => defaultColor
  | (key, col) :: rest, s => if pyIn key s then col else colorLoop rest s

/-- Color selection for one task's status (source lines 364-368). -/
def colorFor (status : String) : String := colorLoop status_colors (pyUpper status)

/-- Outcome of one `requests.get` attempt: a timeout, a connection error, an
HTTP response with status code and decoded payload, or another request
exception raised by the call itself. -/
inductive NetResult (α : Type) where
  | timeout
  | connError
  | response (status : Nat) (payload : α)
  | reqError
deriving DecidableEq

/-- Per-attempt timeout `15 + attempt * 5` (15s, 20s, 25s). -/
def attemptTimeout (attempt : Nat) : Nat := 15 + attempt * 5

/-- A ClickUp list as returned by folder resolution (`id`, `name`). -/
structure CList where
  id : String
  name : String
deriving DecidableEq

/-- Retry loop of `get_lists_from_folder` (source lines 124-169), run over
the remaining attempt indices.  Returns the result together with the list of
per-attempt timeouts actually used.  Explicit 404 / 401 / 403 checks return
`None` at once; any other error status makes `raise_for_status` raise a
`RequestException`, whose handler also returns `None` at once; a timeout or
connection error retries unless this was the last attempt. -/
def get_lists_from_folder_loop (net : Nat → NetResult (List CList)) :
    List Nat → Option (List CList) × List Nat
  | [] => (none, [])
  | attempt :: rest =>
    let t := attemptTimeout attempt
    match net attempt with
    | .response status payload =>
      if status == 404 then (none, [t])
      else if status == 401 then (none, [t])
      else if status == 403 then (none, [t])
      else if 400 ≤ status then (none, [t])
      else (some payload, [t])
    | .timeout =>
      if rest.isEmpty then (none, [t])
      else
        let r := get_lists_from_folder_loop net rest
        (r.1, t :: r.2)
    | .connError =>
      if rest.isEmpty then (none, [t])
      else
        let r := get_lists_from_folder_loop net rest
        (r.1, t :: r.2)
    | .reqError => (none, [t])

/-- `get_lists_from_folder`, parametrised by the outcome of each attempt:
`max_retries = 3`, attempts 0, 1, 2. -/
def get_lists_from_folder (net : Nat → NetResult (List CList)) :
    Option (List CList) × List Nat :=
  get_lists_from_folder_loop net [0, 1, 2]

/-- Retry loop of `get_clickup_tasks` (source lines 177-216): same shape,
with explicit checks only for 404 and 401 (any other error status still
fails at once through `raise_for_status` and the `RequestException`
handler). -/
def get_clickup_tasks_loop (net : Nat → NetResult (List Task)) :
    List Nat → Option (List Task) × List Nat
  | [] => (none, [])
  | attempt :: rest =>
    let t := attemptTimeout attempt
    match net attempt with
    | .response status payload =>
      if status == 404 then (none, [t])
      else if status == 401 then (none, [t])
      else if 400 ≤ status then (none, [t])
      else (some payload, [t])
    | .timeout =>
      if rest.isEmpty then (none, [t])
      else
        let r := get_clickup_tasks_loop net rest
        (r.1, t :: r.2)
    | .connError =>
      if rest.isEmpty then (none, [t])
      else
        let r := get_clickup_tasks_loop net rest
        (r.1, t :: r.2)
    | .reqError => (none, [t])

/-- `get_clickup_tasks`, parametrised by the outcome of each attempt. -/
def get_clickup_tasks (net : Nat → NetResult (List Task)) :
    Option (List Task) × List Nat :=
  get_clickup_tasks_loop net [0, 1, 2]

/-- Source type tag (`source_type` argument). -/
inductive SourceType where
  | list
  | folder
deriving DecidableEq

/-- `get_all_tasks_from_source` (source lines 219-266), parametrised by the
results of its sub-calls: `getLists id` stands for
`get_lists_from_folder(api_token, id)` and `getTasks id` for
`get_clickup_tasks(api_token, id)`.  Folder path: `if not lists: return
None` (covers both failure and an empty folder); then each list's tasks are
appended only when truthy (`if tasks:` skips both a failed and an empty
fetch); finally `if not all_tasks: return None`. -/
def get_all_tasks_from_source (source_id : String)
    (getLists : String → Option (List CList))
    (getTasks : String → Option (List Task))
    (source_type : SourceType) : Option (List Task) :=
  match source_type with
  | .folder =>
    match getLists source_id with
    | none => none
    | some lists =>
      if lists.isEmpty then none
      else
        let all_tasks := lists.foldl
          (fun acc list_item =>
            match getTasks list_item.id with
            | none => acc
            | some tasks => if tasks.isEmpty then acc else acc ++ tasks)
          []
        if all_tasks.isEmpty then none else some all_tasks
  | .list =>
    match getTasks source_id with
    | none => none
    | some tasks => if tasks.isEmpty then none else some tasks

/-- The fields of the page object `update_confluence_with_image` reads:
current version number, title, content type. -/
structure PageInfo where
  version : Nat
  title : String
  ptype : String
deriving DecidableEq

/-- The content-update request body the script PUTs: the bumped version
number, unchanged title and type, and the new body's variable parts
(attachment filename and project name). -/
structure PutPayload where
  version : Nat
  title : String
  ptype : String
  filename : String
  project_name : String
deriving DecidableEq

/-- `update_confluence_with_image` (source lines 477-536), parametrised by
the page-fetch outcome and by whether the remote accepts a given PUT.
Returns the boolean result together with the list of update submissions
made.  A fetch failure returns `False` with no submission; otherwise exactly
one PUT carrying `version = current + 1` is sent and its outcome is
returned — no retry on failure. -/
def update_confluence_with_image (fetchPage : Option PageInfo)
    (putOk : PutPayload → Bool) (filename project_name : String) :
    Bool × List PutPayload :=
  match fetchPage with
  | none => (false, [])
  | some page_info =>
    let payload : PutPayload :=
      ⟨page_info.version + 1, page_info.title, page_info.ptype,
       filename, project_name⟩
    (putOk payload, [payload])

/-- ASCII lower-casing of one character (model of `str.lower()` per char). -/
def charLower (c : Char) : Char :=
  if 'A' ≤ c ∧ c ≤ 'Z' then Char.ofNat (c.toNat + 32) else c

/-- Model of Python `s.lower()` for ASCII strings. -/
def pyLower (s : String) : String := String.mk (s.data.map charLower)

/-- The attachment filename the script builds:
`f"gantt-{project_name.lower().replace(' ', '-')}-{date}.png"`.
Single-character `str.replace` is a character map. -/
def gantt_filename (project_name datestr : String) : String :=
  "gantt-"
    ++ String.mk ((pyLower project_name).data.map (fun c => if c == ' ' then '-' else c))
    ++ "-" ++ datestr ++ ".png"

/-- One configured mapping (the dict built by `load_config`). -/
structure Mapping where
  name : String
  confluence_page_id : String
  clickup_list_id : Option String
  clickup_folder_id : Option String
deriving DecidableEq

/-- Truthiness of an optional string (`mapping.get(key)`): missing key or an
empty string is falsy. -/
def optStrFalsy : Option String → Bool
  | none => true
  | some s => s == ""

/-- Source determination in `process_mapping` (source lines 544-558):
`clickup_list_id` wins when truthy, else `clickup_folder_id`, else the
mapping fails before any remote call. -/
def sourceOf (mapping : Mapping) : Option (String × SourceType) :=
  if ¬(optStrFalsy mapping.clickup_list_id) then
    some (mapping.clickup_list_id.getD "", SourceType.list)
  else if ¬(optStrFalsy mapping.clickup_folder_id) then
    some (mapping.clickup_folder_id.getD "", SourceType.folder)
  else none

/-- The four pipeline steps of one mapping. -/
inductive Step where
  | fetch
  | render
  | upload
  | update
deriving DecidableEq

/-- External-world behaviour one run observes, as oracles: the sub-call
results for ClickUp folder resolution and per-list task fetches, the
attachment-upload result per mapping, the page fetch per mapping, whether
the remote accepts a given content update, and the date string used in the
filename. -/
structure Env where
  getLists : String → Option (List CList)
  getTasks : String → Option (List Task)
  upload : Mapping → Option String
  fetchPage : Mapping → Option PageInfo
  putOk : Mapping → PutPayload → Bool
  datestr : String

/-- `process_mapping` (source lines 539-601): fetch → render → upload →
update, each step's falsy result returning `False` at once.  The second
component records which steps were started. -/
def process_mapping (env : Env) (mapping : Mapping) : Bool × List Step :=
  let project_name := mapping.name
  match sourceOf mapping with
  | none => (false, [])
  | some (source_id, source_type) =>
    match get_all_tasks_from_source source_id env.getLists env.getTasks source_type with
    | none => (false, [Step.fetch])
    | some tasks =>
      if tasks.isEmpty then (false, [Step.fetch])
      else
        match generate_gantt_image tasks with
        | none => (false, [Step.fetch, Step.render])
        | some _ =>
          let filename := gantt_filename project_name env.datestr
          match env.upload mapping with
          | none => (false, [Step.fetch, Step.render, Step.upload])
          | some attachment_id =>
            if attachment_id == "" then
              (false, [Step.fetch, Step.render, Step.upload])
            else
              let r := update_confluence_with_image (env.fetchPage mapping)
                (env.putOk mapping) filename project_name
              (r.1, [Step.fetch, Step.render, Step.upload, Step.update])

/-- The `__main__` block (source lines 604-647).  `config = none` stands for
`load_config` having called `sys.exit(1)` (unreadable file, missing
credentials, or no mappings discovered from the environment); an explicitly
empty mapping list also exits 1.  Otherwise every mapping is processed in
order, outcomes are collected, and the exit code is 0 exactly when no
mapping failed. -/
def main_run (env : Env) (config : Option (List Mapping)) : Nat × List Bool :=
  match config with
  | none => (1, [])
  | some mappings =>
    if mappings.isEmpty then (1, [])
    else
      let results := mappings.map (fun m => (process_mapping env m).1)
      let successful := results.countP (fun b => b)
      let failed := results.length - successful
      (if failed == 0 then 0 else 1, results)

/-! ### Helper lemmas -/

/-- A `filterMap` keeps exactly the elements the function does not send to
`none`. -/
lemma length_filterMap_add {α β : Type} (f : α → Option β) (l : List α) :
    (l.filterMap f).length + l.countP (fun a => (f a).isNone) = l.length := by
  induction l with
  | nil => simp
  | cons a l ih =>
    cases h : f a <;>
      simp [List.filterMap_cons, h, List.countP_cons, ih.symm] <;> omega

/-- Folding `min` over a non-empty list of integers is invariant under
permutation. -/
lemma foldl_min_perm (x y : Int) (xs ys : List Int)
    (h : (x :: xs).Perm (y :: ys)) :
    xs.foldl min x = ys.foldl min y := by
  have hxy : (x :: xs).foldl min x = (y :: ys).foldl min x := h.foldl_eq x
  have hyx : (y :: ys).foldl min y = (x :: xs).foldl min y := h.symm.foldl_eq y
  have ex : (x :: xs).foldl min x = xs.foldl min x := by
    simp [List.foldl_cons, min_self]
  have ey : (y :: ys).foldl min y = ys.foldl min y := by
    simp [List.foldl_cons, min_self]
  have e1 : (y :: ys).foldl min x = min x (ys.foldl min y) := by
    rw [List.foldl_cons]; exact List.foldl_assoc
  have e2 : (x :: xs).foldl min y = min y (xs.foldl min x) := by
    rw [List.foldl_cons]; exact List.foldl_assoc
  have hA : xs.foldl min x = min x (ys.foldl min y) := by rw [← ex, hxy, e1]
  have hB : ys.foldl min y = min y (xs.foldl min x) := by rw [← ey, hyx, e2]
  refine le_antisymm ?_ ?_
  · rw [hA]; exact min_le_right _ _
  · rw [hB]; exact min_le_right _ _

/-- Folding `max` over a non-empty list of integers is invariant under
permutation. -/
lemma foldl_max_perm (x y : Int) (xs ys : List Int)
    (h : (x :: xs).Perm (y :: ys)) :
    xs.foldl max x = ys.foldl max y := by
  have hxy : (x :: xs).foldl max x = (y :: ys).foldl max x := h.foldl_eq x
  have hyx : (y :: ys).foldl max y = (x :: xs).foldl max y := h.symm.foldl_eq y
  have ex : (x :: xs).foldl max x = xs.foldl max x := by
    simp [List.foldl_cons, max_self]
  have ey : (y :: ys).foldl max y = ys.foldl max y := by
    simp [List.foldl_cons, max_self]
  have e1 : (y :: ys).foldl max x = max x (ys.foldl max y) := by
    rw [List.foldl_cons]; exact List.foldl_assoc
  have e2 : (x :: xs).foldl max y = max y (xs.foldl max x) := by
    rw [List.foldl_cons]; exact List.foldl_assoc
  have hA : xs.foldl max x = max x (ys.foldl max y) := by rw [← ex, hxy, e1]
  have hB : ys.foldl max y = max y (xs.foldl max x) := by rw [← ey, hyx, e2]
  refine le_antisymm ?_ ?_
  · rw [hB]; exact le_max_right _ _
  · rw [hA]; exact le_max_right _ _

/-- The chart's running minimum of resolved starts is the same over any
reordering of the resolved tasks. -/
lemma foldl_minStart_perm (v w : ChartTask) (vs ws : List ChartTask)
    (h : (v :: vs).Perm (w :: ws)) :
    vs.foldl (fun acc t => min acc t.start) v.start
      = ws.foldl (fun acc t => min acc t.start) w.start := by
  have hm := h.map ChartTask.start
  have := foldl_min_perm v.start w.start (vs.map ChartTask.start)
    (ws.map ChartTask.start) (by simpa using hm)
  simpa [List.foldl_map] using this

/-- The chart's running maximum of resolved ends is the same over any
reordering of the resolved tasks. -/
lemma foldl_maxEnd_perm (v w : ChartTask) (vs ws : List ChartTask)
    (h : (v :: vs).Perm (w :: ws)) :
    vs.foldl (fun acc t => max acc t.«end») v.«end»
      = ws.foldl (fun acc t => max acc t.«end») w.«end» := by
  have hm := h.map ChartTask.«end»
  have := foldl_max_perm v.«end» w.«end» (vs.map ChartTask.«end»)
    (ws.map ChartTask.«end») (by simpa using hm)
  simpa [List.foldl_map] using this

/-- The renderer fails exactly when no input record survives date
resolution. -/
lemma generate_eq_none_iff (ts : List Task) :
    generate_gantt_image ts = none ↔ validTasksOf ts = [] := by
  unfold generate_gantt_image
  rcases hs : List.insertionSort startLE (validTasksOf ts) with _ | ⟨v, vs⟩
  · have hp := List.perm_insertionSort startLE (validTasksOf ts)
    rw [hs] at hp
    have hnil : validTasksOf ts = [] := hp.symm.eq_nil
    simp [hnil]
  · have hne : validTasksOf ts ≠ [] := by
      intro h0
      rw [h0] at hs
      simp [List.insertionSort] at hs
    simp [hs, hne, List.isEmpty_iff]

/-- Shape of a successful render: the tasks are the stable sort of the
surviving records and the axis limits come from folding `min` over starts
and `max` over ends of the sorted list, with a 7-day margin. -/
lemma generate_eq_some_iff (ts : List Task) (chart : Chart) :
    generate_gantt_image ts = some chart ↔
      ∃ v vs, List.insertionSort startLE (validTasksOf ts) = v :: vs ∧
        chart = ⟨v :: vs, (v :: vs).reverse,
          vs.foldl (fun acc t => min acc t.start) v.start - 7 * day,
          vs.foldl (fun acc t => max acc t.«end») v.«end» + 7 * day⟩ := by
  unfold generate_gantt_image
  rcases hs : List.insertionSort startLE (validTasksOf ts) with _ | ⟨v, vs⟩
  · have hp := List.perm_insertionSort startLE (validTasksOf ts)
    rw [hs] at hp
    have hnil : validTasksOf ts = [] := hp.symm.eq_nil
    simp [hnil, List.insertionSort, hs]
  · have hne : validTasksOf ts ≠ [] := by
      intro h0
      rw [h0] at hs
      simp [List.insertionSort] at hs
    have hcond : ¬((validTasksOf ts).isEmpty = true) := by
      simp [List.isEmpty_iff, hne]
    rw [if_neg hcond, hs]
    constructor
    · intro h
      exact ⟨v, vs, rfl, (Option.some_inj.mp h).symm⟩
    · rintro ⟨v', vs', hvv, rfl⟩
      obtain ⟨rfl, rfl⟩ := List.cons_eq_cons.mp hvv.symm
      rfl

/-- The break-on-first-match loop equals a `find?` over the ordered table. -/
lemma colorLoop_eq_find? (l : List (String × String)) (s : String) :
    colorLoop l s =
      match l.find? (fun kv => pyIn kv.1 s) with
      | some kv => kv.2
      | none => defaultColor := by
  induction l with
  | nil => simp [colorLoop]
  | cons kv rest ih =>
    rcases kv with ⟨k, c⟩
    by_cases h : pyIn k s
    · simp [colorLoop, List.find?_cons, h]
    · simp only [colorLoop, List.find?_cons]
      rw [if_neg h]
      simp only [Bool.not_eq_true] at h
      rw [h]
      exact ih

/-- Concatenation of the task records of the lists whose individual fetch
succeeded (failed fetches contribute nothing). -/
def collected (getTasks : String → Option (List Task)) (lists : List CList) :
    List Task :=
  lists.foldl
    (fun acc l =>
      match getTasks l.id with
      | none => acc
      | some ts => acc ++ ts)
    []

/-- The source's fold (which also skips an explicitly empty task list)
computes `collected`: skipping an empty list equals appending it. -/
lemma fold_collect_eq (getTasks : String → Option (List Task))
    (lists : List CList) (acc : List Task) :
    lists.foldl
      (fun acc l =>
        match getTasks l.id with
        | none => acc
        | some ts => if ts.isEmpty then acc else acc ++ ts)
      acc
    = lists.foldl
      (fun acc l =>
        match getTasks l.id with
        | none => acc
        | some ts => acc ++ ts)
      acc := by
  induction lists generalizing acc with
  | nil => rfl
  | cons l rest ih =>
    simp only [List.foldl_cons]
    cases h : getTasks l.id with
    | none => exact ih acc
    | some ts =>
      cases ts with
      | nil => simpa using ih acc
      | cons t ts' => simpa using ih (acc ++ t :: ts')

/-! ### Claims -/

/-- C1: per task record, if both decoded timestamps are present the resolved
chart-task start and end are exactly those values; only `due` present infers
`start = due - 1 day`; only `start` present infers `end = start + 1 day`;
neither present drops the record from the chart task set. -/
theorem C1_date_resolution :
    ∀ t : Task,
      (∀ s d, clickup_timestamp_to_date t.start_date = some s →
        clickup_timestamp_to_date t.due_date = some d →
        chartTaskOf t = some ⟨t.name, s, d, t.status⟩)
    ∧ (∀ d, clickup_timestamp_to_date t.start_date = none →
        clickup_timestamp_to_date t.due_date = some d →
        chartTaskOf t = some ⟨t.name, d - day, d, t.status⟩)
    ∧ (∀ s, clickup_timestamp_to_date t.start_date = some s →
        clickup_timestamp_to_date t.due_date = none →
        chartTaskOf t = some ⟨t.name, s, s + day, t.status⟩)
    ∧ (clickup_timestamp_to_date t.start_date = none →
        clickup_timestamp_to_date t.due_date = none →
        chartTaskOf t = none ∧
          ∀ rest, validTasksOf (t :: rest) = validTasksOf rest) := by
  intro t
  refine ⟨?_, ?_, ?_, ?_⟩
  · intro s d hs hd; simp [chartTaskOf, hs, hd]
  · intro d hs hd; simp [chartTaskOf, hs, hd]
  · intro s hs hd; simp [chartTaskOf, hs, hd]
  · intro hs hd
    have hnone : chartTaskOf t = none := by simp [chartTaskOf, hs, hd]
    exact ⟨hnone, fun rest => by simp [validTasksOf, List.filterMap_cons, hnone]⟩

/-- Witness for C1 at concrete records, one per date-resolution case. -/
theorem C1_date_resolution_witness :
    chartTaskOf ⟨"w", TsVal.int 864000000, TsVal.int 1036800000, "OPEN"⟩
      = some ⟨"w", 864000000, 1036800000, "OPEN"⟩
    ∧ chartTaskOf ⟨"w", TsVal.null, TsVal.int 1296000000, "OPEN"⟩
      = some ⟨"w", 1296000000 - day, 1296000000, "OPEN"⟩
    ∧ chartTaskOf ⟨"w", TsVal.int 864000000, TsVal.null, "OPEN"⟩
      = some ⟨"w", 864000000, 864000000 + day, "OPEN"⟩
    ∧ chartTaskOf ⟨"w", TsVal.null, TsVal.null, "OPEN"⟩ = none := by
  refine ⟨?_, ?_, ?_, ?_⟩
  · exact (C1_date_resolution _).1 864000000 1036800000 (by decide) (by decide)
  · exact (C1_date_resolution _).2.1 1296000000 (by decide) (by decide)
  · exact (C1_date_resolution _).2.2.1 864000000 (by decide) (by decide)
  · exact ((C1_date_resolution _).2.2.2 (by decide) (by decide)).1

/-- C6: status-to-color classification is the ordered first-substring-match
over the fixed table on the upper-cased label, defaulting to light gray;
"COMPLETED" and "complete" both classify to the done-green, an unrecognized
label to light gray. -/
theorem C6_status_color :
    (∀ status kv,
      status_colors.find? (fun e => pyIn e.1 (pyUpper status)) = some kv →
      colorFor status = kv.2)
    ∧ (∀ status,
      status_colors.find? (fun e => pyIn e.1 (pyUpper status)) = none →
      colorFor status = defaultColor)
    ∧ colorFor "COMPLETED" = "#8dd879"
    ∧ colorFor "complete" = "#8dd879"
    ∧ colorFor "COMPLETED" = colorFor "complete"
    ∧ colorFor "BLOCKED" = defaultColor := by
  refine ⟨?_, ?_, by decide, by decide, by decide, by decide⟩
  · intro status kv hf
    rw [colorFor, colorLoop_eq_find?, hf]
  · intro status hf
    rw [colorFor, colorLoop_eq_find?, hf]

/-- Witness for C6: the table lookup for "COMPLETED" hits the "COMPLETE"
entry first and yields the done-green. -/
theorem C6_status_color_witness : colorFor "COMPLETED" = "#8dd879" ∧ colorFor "zzz" = defaultColor :=
  ⟨C6_status_color.1 "COMPLETED" ("COMPLETE", "#8dd879") (by decide),
   C6_status_color.2.1 "zzz" (by decide)⟩

/-- C9: the document-update step submits exactly one content update,
carrying version = fetched version + 1; a page-fetch failure submits
nothing and reports failure; a rejected submission is reported as the
returned failure signal with no second submission. -/
theorem C9_single_update :
    ∀ (putOk : PutPayload → Bool) (filename project_name : String),
      update_confluence_with_image none putOk filename project_name
        = (false, [])
    ∧ ∀ p : PageInfo,
        (update_confluence_with_image (some p) putOk filename project_name).2
          = [⟨p.version + 1, p.title, p.ptype, filename, project_name⟩]
      ∧ (update_confluence_with_image (some p) putOk filename project_name).1
          = putOk ⟨p.version + 1, p.title, p.ptype, filename, project_name⟩ := by
  intro putOk filename project_name
  exact ⟨rfl, fun p => ⟨rfl, rfl⟩⟩

/-- C10: the timestamp decoder is total with `none` as the absent marker;
missing, empty and non-numeric inputs decode to `none`, and a record whose
timestamp fields fail to decode is resolved exactly like a record lacking
those fields (in particular it is dropped when both fail). -/
theorem C10_decoder_total :
    (∀ v : TsVal, clickup_timestamp_to_date v = none
      ∨ ∃ n, clickup_timestamp_to_date v = some n)
    ∧ clickup_timestamp_to_date TsVal.null = none
    ∧ clickup_timestamp_to_date (TsVal.str "") = none
    ∧ (∀ s, pyIntOfChars s.data = none →
        clickup_timestamp_to_date (TsVal.str s) = none)
    ∧ (∀ name status v w, clickup_timestamp_to_date v = none →
        chartTaskOf ⟨name, v, w, status⟩
          = chartTaskOf ⟨name, TsVal.null, w, status⟩)
    ∧ (∀ name status v w, clickup_timestamp_to_date w = none →
        chartTaskOf ⟨name, v, w, status⟩
          = chartTaskOf ⟨name, v, TsVal.null, status⟩)
    ∧ (∀ t : Task, clickup_timestamp_to_date t.start_date = none →
        clickup_timestamp_to_date t.due_date = none →
        chartTaskOf t = none) := by
  refine ⟨?_, by decide, by decide, ?_, ?_, ?_, ?_⟩
  · intro v
    cases h : clickup_timestamp_to_date v with
    | none => exact Or.inl rfl
    | some n => exact Or.inr ⟨n, rfl⟩
  · intro s hp
    by_cases h0 : s = ""
    · subst h0; decide
    · simp [clickup_timestamp_to_date, tsFalsy, pyInt, hp, h0]
  · intro name status v w hv
    cases hw : clickup_timestamp_to_date w <;>
      simp [chartTaskOf, hv, hw, show clickup_timestamp_to_date TsVal.null = none from rfl]
  · intro name status v w hw
    cases hv : clickup_timestamp_to_date v <;>
      simp [chartTaskOf, hv, hw, show clickup_timestamp_to_date TsVal.null = none from rfl]
  · intro t hs hd
    simp [chartTaskOf, hs, hd]

/-- Witness for C10: a malformed numeric string decodes to `none`, and a
record with two malformed timestamps is dropped. -/
theorem C10_decoder_total_witness :
    clickup_timestamp_to_date (TsVal.str "12abc") = none
    ∧ chartTaskOf ⟨"m", TsVal.str "xx", TsVal.str "yy", "OPEN"⟩ = none :=
  ⟨C10_decoder_total.2.2.2.1 "12abc" (by decide),
   C10_decoder_total.2.2.2.2.2.2 ⟨"m", TsVal.str "xx", TsVal.str "yy", "OPEN"⟩
     (by decide) (by decide)⟩

/-- C3: both remote ClickUp calls are attempted at most 3 times with
per-attempt timeouts 15, 20, 25; timeouts/connection failures on every
attempt yield a failure signal (no exception escapes — the embedding is a
total function into `Option`); a 401/404/403 response fails immediately
after a single attempt; and two timeouts followed by a success return the
successful payload. -/
theorem C3_retry_policy :
    ∀ (netF : Nat → NetResult (List CList)) (netT : Nat → NetResult (List Task)),
      ((get_lists_from_folder netF).2 = [15]
        ∨ (get_lists_from_folder netF).2 = [15, 20]
        ∨ (get_lists_from_folder netF).2 = [15, 20, 25])
    ∧ ((get_clickup_tasks netT).2 = [15]
        ∨ (get_clickup_tasks netT).2 = [15, 20]
        ∨ (get_clickup_tasks netT).2 = [15, 20, 25])
    ∧ ((∀ i, i < 3 → netF i = NetResult.timeout ∨ netF i = NetResult.connError) →
        (get_lists_from_folder netF).1 = none)
    ∧ ((∀ i, i < 3 → netT i = NetResult.timeout ∨ netT i = NetResult.connError) →
        (get_clickup_tasks netT).1 = none)
    ∧ (∀ st p, (st = 401 ∨ st = 404 ∨ st = 403) →
        netF 0 = NetResult.response st p →
        get_lists_from_folder netF = (none, [15]))
    ∧ (∀ st p, (st = 401 ∨ st = 404 ∨ st = 403) →
        netT 0 = NetResult.response st p →
        get_clickup_tasks netT = (none, [15]))
    ∧ (∀ p, netF 0 = NetResult.timeout → netF 1 = NetResult.timeout →
        netF 2 = NetResult.response 200 p →
        get_lists_from_folder netF = (some p, [15, 20, 25]))
    ∧ (∀ p, netT 0 = NetResult.timeout → netT 1 = NetResult.timeout →
        netT 2 = NetResult.response 200 p →
        get_clickup_tasks netT = (some p, [15, 20, 25])) := by
  intro netF netT
  refine ⟨?_, ?_, ?_, ?_, ?_, ?_, ?_, ?_⟩
  · cases h0 : netF 0 <;> cases h1 : netF 1 <;> cases h2 : netF 2 <;>
      simp [get_lists_from_folder, get_lists_from_folder_loop, attemptTimeout,
        h0, h1, h2] <;> split_ifs <;> simp
  · cases h0 : netT 0 <;> cases h1 : netT 1 <;> cases h2 : netT 2 <;>
      simp [get_clickup_tasks, get_clickup_tasks_loop, attemptTimeout,
        h0, h1, h2] <;> split_ifs <;> simp
  · intro H
    rcases H 0 (by omega) with h0 | h0 <;> rcases H 1 (by omega) with h1 | h1 <;>
      rcases H 2 (by omega) with h2 | h2 <;>
      simp [get_lists_from_folder, get_lists_from_folder_loop, attemptTimeout,
        h0, h1, h2]
  · intro H
    rcases H 0 (by omega) with h0 | h0 <;> rcases H 1 (by omega) with h1 | h1 <;>
      rcases H 2 (by omega) with h2 | h2 <;>
      simp [get_clickup_tasks, get_clickup_tasks_loop, attemptTimeout,
        h0, h1, h2]
  · intro st p hst h0
    rcases hst with rfl | rfl | rfl <;>
      simp [get_lists_from_folder, get_lists_from_folder_loop, attemptTimeout, h0]
  · intro st p hst h0
    rcases hst with rfl | rfl | rfl <;>
      simp [get_clickup_tasks, get_clickup_tasks_loop, attemptTimeout, h0]
  · intro p h0 h1 h2
    simp [get_lists_from_folder, get_lists_from_folder_loop, attemptTimeout,
      h0, h1, h2]
  · intro p h0 h1 h2
    simp [get_clickup_tasks, get_clickup_tasks_loop, attemptTimeout,
      h0, h1, h2]

/-- Network behaviour that times out twice and then answers 200 with one
list: retry scenario input. -/
def netTwoTimeouts : Nat → NetResult (List CList) :=
  fun i => if i < 2 then NetResult.timeout else NetResult.response 200 [⟨"L1", "Lista"⟩]

/-- Network behaviour answering 401 at once. -/
def netAuthReject : Nat → NetResult (List Task) :=
  fun _ => NetResult.response 401 []

/-- Witness for C3: the two-timeouts-then-success run returns the payload
after the full 15/20/25 schedule, and a 401 fails after one attempt. -/
theorem C3_retry_policy_witness :
    get_lists_from_folder netTwoTimeouts = (some [⟨"L1", "Lista"⟩], [15, 20, 25])
    ∧ get_clickup_tasks netAuthReject = (none, [15]) :=
  ⟨(C3_retry_policy netTwoTimeouts netAuthReject).2.2.2.2.2.2.1
      [⟨"L1", "Lista"⟩] rfl rfl rfl,
   (C3_retry_policy netTwoTimeouts netAuthReject).2.2.2.2.2.1
      401 [] (Or.inl rfl) rfl⟩

/-- C5: the renderer fails exactly when the input is empty or no record
decodes at least one timestamp ("survives date resolution"); otherwise the
number of chart tasks is the input count minus the count of records with
neither decodable timestamp. -/
theorem C5_render_failure :
    ∀ ts : List Task,
      (generate_gantt_image ts = none ↔
        (ts = [] ∨ ∀ t ∈ ts, chartTaskOf t = none))
    ∧ (∀ chart, generate_gantt_image ts = some chart →
        chart.tasks.length
          = ts.length - ts.countP (fun t => (chartTaskOf t).isNone)) := by
  intro ts
  constructor
  · rw [generate_eq_none_iff, validTasksOf, List.filterMap_eq_nil_iff]
    constructor
    · exact fun h => Or.inr h
    · rintro (rfl | h)
      · intro t ht; cases ht
      · exact h
  · intro chart hc
    obtain ⟨v, vs, hs, rfl⟩ := (generate_eq_some_iff ts chart).mp hc
    have hperm : (v :: vs).Perm (validTasksOf ts) := by
      rw [← hs]; exact List.perm_insertionSort startLE (validTasksOf ts)
    have hlen : (v :: vs).length = (validTasksOf ts).length := hperm.length_eq
    have hcount := length_filterMap_add chartTaskOf ts
    simp only [validTasksOf] at hlen hcount
    simp only [hlen]
    omega

/-- Base day used in the concrete scenarios (non-zero so that its integer
millisecond value is truthy in Python). -/
def scenDay (k : Nat) : Int := 86400000 * ((k : Int) + 10)

/-- Scenario task A: start Day 0, due Day 2. -/
def taskA : Task := ⟨"A", TsVal.int (scenDay 0), TsVal.int (scenDay 2), "OPEN"⟩

/-- Scenario task B: only a due timestamp, Day 5. -/
def taskB : Task := ⟨"B", TsVal.null, TsVal.int (scenDay 5), "OPEN"⟩

/-- Scenario task C: no timestamps at all. -/
def taskC : Task := ⟨"C", TsVal.null, TsVal.null, "OPEN"⟩

/-- The chart the renderer produces on the scenario input. -/
def scenChart : Chart :=
  ⟨[⟨"A", scenDay 0, scenDay 2, "OPEN"⟩, ⟨"B", scenDay 4, scenDay 5, "OPEN"⟩],
   [⟨"B", scenDay 4, scenDay 5, "OPEN"⟩, ⟨"A", scenDay 0, scenDay 2, "OPEN"⟩],
   scenDay 0 - 7 * day, scenDay 5 + 7 * day⟩

/-- Witness for C5: on the three-task scenario the renderer succeeds and
draws 3 − 1 = 2 chart tasks. -/
theorem C5_render_failure_witness :
    generate_gantt_image [taskA, taskB, taskC] = some scenChart
      ∧ scenChart.tasks.length = 2 := by
  refine ⟨by decide, ?_⟩
  have h := (C5_render_failure [taskA, taskB, taskC]).2 scenChart (by decide)
  exact h.trans (by decide)

/-- C7: on a successful render the x-axis spans from the minimum resolved
start minus 7 days to the maximum resolved end plus 7 days, where the
minimum/maximum range over the records surviving date resolution (in input
order, before sorting). -/
theorem C7_axis_range :
    ∀ (ts : List Task) (chart : Chart) (v : ChartTask) (vs : List ChartTask),
      generate_gantt_image ts = some chart →
      validTasksOf ts = v :: vs →
      chart.axisMin = vs.foldl (fun acc t => min acc t.start) v.start - 7 * day
      ∧ chart.axisMax = vs.foldl (fun acc t => max acc t.«end») v.«end» + 7 * day := by
  intro ts chart v vs hc hv
  obtain ⟨w, ws, hs, rfl⟩ := (generate_eq_some_iff ts chart).mp hc
  have hperm : (w :: ws).Perm (v :: vs) := by
    rw [← hs, ← hv]; exact List.perm_insertionSort startLE (validTasksOf ts)
  constructor
  · show ws.foldl (fun acc t => min acc t.start) w.start - 7 * day
        = vs.foldl (fun acc t => min acc t.start) v.start - 7 * day
    rw [foldl_minStart_perm w v ws vs hperm]
  · show ws.foldl (fun acc t => max acc t.«end») w.«end» + 7 * day
        = vs.foldl (fun acc t => max acc t.«end») v.«end» + 7 * day
    rw [foldl_maxEnd_perm w v ws vs hperm]

/-- Witness for C7 on the concrete scenario: axis from Day 0 − 7 days to
Day 5 + 7 days. -/
theorem C7_axis_range_witness :
    generate_gantt_image [taskA, taskB, taskC] = some scenChart
      ∧ scenChart.axisMin = scenDay 0 - 7 * day
      ∧ scenChart.axisMax = scenDay 5 + 7 * day := by
  refine ⟨by decide, ?_, ?_⟩
  · have h := (C7_axis_range [taskA, taskB, taskC] scenChart
      ⟨"A", scenDay 0, scenDay 2, "OPEN"⟩ [⟨"B", scenDay 4, scenDay 5, "OPEN"⟩]
      (by decide) (by decide)).1
    exact h.trans (by decide)
  · have h := (C7_axis_range [taskA, taskB, taskC] scenChart
      ⟨"A", scenDay 0, scenDay 2, "OPEN"⟩ [⟨"B", scenDay 4, scenDay 5, "OPEN"⟩]
      (by decide) (by decide)).2
    exact h.trans (by decide)

/-- C8: chart tasks are the surviving records stably sorted ascending by
resolved start; the drawing order is the reverse, so the last-drawn (top)
row is the sorted head, a task of minimal start.  On the scenario
A(start Day 0, end Day 2), B(due Day 5 only), C(no dates): C is dropped,
B's start is inferred as Day 4, and the sort places A before B. -/
theorem C8_ordering :
    (∀ (ts : List Task) (chart : Chart), generate_gantt_image ts = some chart →
      List.Sorted startLE chart.tasks
      ∧ chart.tasks.Perm (validTasksOf ts)
      ∧ chart.rows = chart.tasks.reverse
      ∧ chart.rows.getLast? = chart.tasks.head?
      ∧ (∀ v, chart.tasks.head? = some v → ∀ u ∈ chart.tasks, v.start ≤ u.start))
    ∧ generate_gantt_image [taskA, taskB, taskC] = some scenChart
    ∧ scenChart.tasks
        = [⟨"A", scenDay 0, scenDay 2, "OPEN"⟩, ⟨"B", scenDay 4, scenDay 5, "OPEN"⟩]
    ∧ scenDay 4 = scenDay 5 - day := by
  refine ⟨?_, by decide, by decide, by decide⟩
  intro ts chart hc
  obtain ⟨v, vs, hs, rfl⟩ := (generate_eq_some_iff ts chart).mp hc
  have hsorted : List.Sorted startLE (v :: vs) := by
    rw [← hs]; exact List.sorted_insertionSort startLE (validTasksOf ts)
  have hperm : (v :: vs).Perm (validTasksOf ts) := by
    rw [← hs]; exact List.perm_insertionSort startLE (validTasksOf ts)
  refine ⟨hsorted, hperm, rfl, List.getLast?_reverse _, ?_⟩
  intro w hw u hu
  have hw' : v = w := by simpa using hw
  subst hw'
  rcases List.mem_cons.mp hu with rfl | hu'
  · exact le_refl _
  · exact (List.sorted_cons.mp hsorted).1 u hu'

/-- Witness for C8: applying the general part to the scenario, the top row
equals the sorted head (the earliest-starting task A). -/
theorem C8_ordering_witness :
    generate_gantt_image [taskA, taskB, taskC] = some scenChart
      ∧ scenChart.rows.getLast? = scenChart.tasks.head?
      ∧ scenChart.tasks.head? = some ⟨"A", scenDay 0, scenDay 2, "OPEN"⟩ := by
  refine ⟨by decide, ?_, by decide⟩
  exact (C8_ordering.1 [taskA, taskB, taskC] scenChart (by decide)).2.2.2.1

/-- Ground-truth task records of the two lists in the C2 scenario. -/
def cexTrueTasks : String → List Task :=
  fun id =>
    if id == "L1" then [⟨"t1", TsVal.int (scenDay 0), TsVal.int (scenDay 1), "OPEN"⟩]
    else if id == "L2" then [⟨"t2", TsVal.int (scenDay 2), TsVal.int (scenDay 3), "OPEN"⟩]
    else []

/-- Per-list fetch outcomes in the C2 scenario: list L1 fetches fine, the
fetch of list L2 fails (e.g. exhausted its retries). -/
def cexGetTasks : String → Option (List Task) :=
  fun id => if id == "L1" then some (cexTrueTasks "L1") else none

/-- Folder resolution in the C2 scenario: the folder contains L1 and L2. -/
def cexGetLists : String → Option (List CList) :=
  fun _ => some [⟨"L1", "Lista 1"⟩, ⟨"L2", "Lista 2"⟩]

/-- C2 counterexample: with a folder of two lists where the fetch of the
second list fails, the fetch neither fails nor returns the complete
concatenation of both lists' records — it silently returns only the first
list's records, a partial subset. -/
theorem C2_counterexample :
    get_all_tasks_from_source "F1" cexGetLists cexGetTasks SourceType.folder
      = some (cexTrueTasks "L1")
    ∧ cexGetTasks "L2" = none
    ∧ ¬(get_all_tasks_from_source "F1" cexGetLists cexGetTasks SourceType.folder
          = none
        ∨ get_all_tasks_from_source "F1" cexGetLists cexGetTasks SourceType.folder
          = some (cexTrueTasks "L1" ++ cexTrueTasks "L2")) := by
  decide

/-- C2 as amended: folder resolution failure (or an empty folder) fails the
whole fetch; otherwise the result concatenates the records of exactly those
lists whose individual fetch succeeded — failed or empty per-list fetches
are skipped rather than failing the fetch — and an empty concatenation is
reported as failure. -/
theorem C2_folder_fetch_amended :
    ∀ (source_id : String) (getLists : String → Option (List CList))
      (getTasks : String → Option (List Task)),
      (getLists source_id = none →
        get_all_tasks_from_source source_id getLists getTasks SourceType.folder
          = none)
    ∧ (∀ lists, getLists source_id = some lists →
        get_all_tasks_from_source source_id getLists getTasks SourceType.folder
          = if lists.isEmpty then none
            else if (collected getTasks lists).isEmpty then none
            else some (collected getTasks lists)) := by
  intro source_id getLists getTasks
  constructor
  · intro h
    simp [get_all_tasks_from_source, h]
  · intro lists h
    simp only [get_all_tasks_from_source, h]
    rcases he : lists.isEmpty with _ | _
    · simp only [he, Bool.false_eq_true, if_false, if_neg]
      rw [fold_collect_eq]
      rfl
    · simp [he]

/-- Witness for C2 (amended) on the counterexample scenario: the partial
result is exactly the collected records of the successfully fetched
lists. -/
theorem C2_folder_fetch_amended_witness :
    get_all_tasks_from_source "F1" cexGetLists cexGetTasks SourceType.folder
      = some (collected cexGetTasks [⟨"L1", "Lista 1"⟩, ⟨"L2", "Lista 2"⟩]) := by
  have h := (C2_folder_fetch_amended "F1" cexGetLists cexGetTasks).2
    [⟨"L1", "Lista 1"⟩, ⟨"L2", "Lista 2"⟩] rfl
  exact h.trans (by decide)

/-- The exit-code test `failed == 0` holds exactly when every collected
outcome is `true`. -/
lemma exit_code_aux (L : List Bool) :
    ((if (L.length - L.countP (fun b => b)) == 0 then (0 : Nat) else 1) = 0)
      ↔ ∀ b ∈ L, b = true := by
  rcases hsub : L.length - L.countP (fun b => b) with _ | k
  · have hcp := le_antisymm
      (List.countP_le_length (fun b => b))
      (Nat.le_of_sub_eq_zero hsub)
    have hall := List.countP_eq_length.mp hcp
    constructor
    · intro _
      exact hall
    · intro _
      rfl
  · constructor
    · intro h
      have h' : (1 : Nat) = 0 := h
      cases h'
    · intro hall
      exfalso
      have hcp : L.countP (fun b => b) = L.length :=
        List.countP_eq_length.mpr hall
      omega

/-- The process exit code is 0 exactly when every mapping's outcome is
`true` (non-empty configured mapping list). -/
lemma exit_code_eq_zero_iff (env : Env) (m0 : Mapping) (rest : List Mapping) :
    (main_run env (some (m0 :: rest))).1 = 0 ↔
      ∀ m ∈ m0 :: rest, (process_mapping env m).1 = true := by
  have hmain : (main_run env (some (m0 :: rest))).1
      = if (((m0 :: rest).map (fun m => (process_mapping env m).1)).length
          - ((m0 :: rest).map (fun m => (process_mapping env m).1)).countP
              (fun b => b)) == 0
        then 0 else 1 := rfl
  rw [hmain, exit_code_aux]
  exact List.forall_mem_map

/-- C4: mappings are processed sequentially and all of them are attempted;
any step failure short-circuits only its own mapping, with the attempted
step list stopping at the failing step; the exit code is 0 iff the
configuration loaded, was non-empty and every mapping succeeded, and 1
otherwise. -/
theorem C4_orchestrator :
    ∀ (env : Env) (config : Option (List Mapping)),
      ((main_run env config).1 = 0 ↔
        ∃ ms, config = some ms ∧ ms ≠ [] ∧
          ∀ m ∈ ms, (process_mapping env m).1 = true)
    ∧ (∀ ms, config = some ms →
        (main_run env config).2 = ms.map (fun m => (process_mapping env m).1))
    ∧ (config = none → (main_run env config).1 = 1)
    ∧ ((main_run env config).1 = 0 ∨ (main_run env config).1 = 1)
    ∧ (∀ m, sourceOf m = none → process_mapping env m = (false, []))
    ∧ (∀ m sid sty, sourceOf m = some (sid, sty) →
        get_all_tasks_from_source sid env.getLists env.getTasks sty = none →
        process_mapping env m = (false, [Step.fetch]))
    ∧ (∀ m sid sty tasks, sourceOf m = some (sid, sty) →
        get_all_tasks_from_source sid env.getLists env.getTasks sty = some tasks →
        tasks ≠ [] →
        generate_gantt_image tasks = none →
        process_mapping env m = (false, [Step.fetch, Step.render]))
    ∧ (∀ m sid sty tasks chart, sourceOf m = some (sid, sty) →
        get_all_tasks_from_source sid env.getLists env.getTasks sty = some tasks →
        tasks ≠ [] →
        generate_gantt_image tasks = some chart →
        env.upload m = none →
        process_mapping env m = (false, [Step.fetch, Step.render, Step.upload]))
    ∧ (∀ m sid sty tasks chart att, sourceOf m = some (sid, sty) →
        get_all_tasks_from_source sid env.getLists env.getTasks sty = some tasks →
        tasks ≠ [] →
        generate_gantt_image tasks = some chart →
        env.upload m = some att → att ≠ "" →
        process_mapping env m =
          ((update_confluence_with_image (env.fetchPage m) (env.putOk m)
              (gantt_filename m.name env.datestr) m.name).1,
           [Step.fetch, Step.render, Step.upload, Step.update])) := by
  intro env config
  refine ⟨?_, ?_, ?_, ?_, ?_, ?_, ?_, ?_, ?_⟩
  · cases config with
    | none => simp [main_run]
    | some ms =>
      rcases ms with _ | ⟨m0, rest⟩
      · simp [main_run]
      · rw [exit_code_eq_zero_iff env m0 rest]
        constructor
        · intro h
          exact ⟨m0 :: rest, rfl, List.cons_ne_nil m0 rest, h⟩
        · rintro ⟨ms', hms', -, h⟩
          obtain rfl := Option.some_inj.mp hms'
          exact h
  · intro ms hms
    subst hms
    rcases ms with _ | ⟨m0, rest⟩
    · rfl
    · rfl
  · intro h; subst h; rfl
  · cases config with
    | none => exact Or.inr rfl
    | some ms =>
      rcases ms with _ | ⟨m0, rest⟩
      · exact Or.inr rfl
      · have hmain : (main_run env (some (m0 :: rest))).1
            = if (((m0 :: rest).map (fun m => (process_mapping env m).1)).length
                - ((m0 :: rest).map (fun m => (process_mapping env m).1)).countP
                    (fun b => b)) == 0
              then 0 else 1 := rfl
        rw [hmain]
        cases hc : (((m0 :: rest).map (fun m => (process_mapping env m).1)).length
            - ((m0 :: rest).map (fun m => (process_mapping env m).1)).countP
                (fun b => b)) == 0 with
        | false => right; rw [if_neg (by simp [hc])]
        | true => left; rw [if_pos (by simp [hc])]
  · intro m h
    simp [process_mapping, h]
  · intro m sid sty hsrc hfetch
    simp [process_mapping, hsrc, hfetch]
  · intro m sid sty tasks hsrc hfetch hne hrender
    obtain ⟨t0, ts0, rfl⟩ := List.exists_cons_of_ne_nil hne
    simp [process_mapping, hsrc, hfetch, hrender]
  · intro m sid sty tasks chart hsrc hfetch hne hrender hupload
    obtain ⟨t0, ts0, rfl⟩ := List.exists_cons_of_ne_nil hne
    simp [process_mapping, hsrc, hfetch, hrender, hupload]
  · intro m sid sty tasks chart att hsrc hfetch hne hrender hupload hatt
    obtain ⟨t0, ts0, rfl⟩ := List.exists_cons_of_ne_nil hne
    have hatt' : (att == "") = false := beq_eq_false_iff_ne.mpr hatt
    simp [process_mapping, hsrc, hfetch, hrender, hupload, hatt']

/-- C4 scenario mapping 1: a list source whose whole pipeline succeeds. -/
def wMapping1 : Mapping := ⟨"Team A", "P1", some "LA", none⟩

/-- C4 scenario mapping 2: a list source whose fetch fails. -/
def wMapping2 : Mapping := ⟨"Team B", "P2", some "LB", none⟩

/-- C4 scenario environment: list LA yields one dated task, list LB's fetch
fails, upload and page update succeed for every mapping. -/
def wEnv : Env :=
  ⟨fun _ => none,
   fun id => if id == "LA"
     then some [⟨"T", TsVal.int (scenDay 0), TsVal.int (scenDay 1), "OPEN"⟩]
     else none,
   fun _ => some "att1",
   fun _ => some ⟨3, "Page", "page"⟩,
   fun _ _ => true,
   "20260101"⟩

/-- Witness for C4: with mapping 1 succeeding and mapping 2's fetch failing,
both mappings are processed, the run reports one success and one failure,
and the exit code is 1. -/
theorem C4_orchestrator_witness :
    (main_run wEnv (some [wMapping1, wMapping2])).2 = [true, false]
    ∧ (main_run wEnv (some [wMapping1, wMapping2])).1 = 1
    ∧ process_mapping wEnv wMapping2 = (false, [Step.fetch]) := by
  refine ⟨?_, ?_, ?_⟩
  · have h := (C4_orchestrator wEnv (some [wMapping1, wMapping2])).2.1
      [wMapping1, wMapping2] rfl
    rw [h]; decide
  · rcases (C4_orchestrator wEnv (some [wMapping1, wMapping2])).2.2.2.1 with h | h
    · exfalso
      have := (C4_orchestrator wEnv (some [wMapping1, wMapping2])).1.mp h
      obtain ⟨ms, hms, -, hall⟩ := this
      obtain rfl := Option.some_inj.mp hms
      have := hall wMapping2 (by simp)
      revert this
      decide
    · exact h
  · exact (C4_orchestrator wEnv (some [wMapping1, wMapping2])).2.2.2.2.2.1
      wMapping2 "LB" SourceType.list (by decide) (by decide)

end ClickGantt









